import Mathlib

/-!
# Verification of the glTF loader core (`src/lib.rs`)

Shallow embedding of the crate root of the `gltf` crate:

* the numeric normalization matrix (`Normalize` impls, lib.rs lines 493–609),
* the document graph wrapper (`Document`, `Gltf`) and its loaders,
* the validation gate (`Document::validate`).

Modelling conventions:

* Rust machine integers (`i8`, `u8`, `i16`, `u16`) are modelled as `ℤ`
  together with range predicates (`isI8`, …).  All the arithmetic the
  source performs on them is exact (no intermediate overflows occur, a
  fact proved below), so the embedding uses exact integer arithmetic.
* Rust `f32` values are modelled as exact rationals `ℚ`: the float
  expressions of the source (`x * c.recip()`, `x.max(-1.0)`, `x * c`)
  are mapped to the corresponding exact rational operations.
* Rust signed integer division truncates toward zero; it is modelled by
  `rustDiv`.  Rust `as` casts from float to integer truncate toward
  zero and saturate at the bounds of the target type; they are modelled
  by `satCast`.
-/

namespace Gltf

/-- `-128 ≤ v ≤ 127`: `v` is a value of Rust type `i8`. -/
def isI8 (v : ℤ) : Prop := -128 ≤ v ∧ v ≤ 127

/-- `0 ≤ v ≤ 255`: `v` is a value of Rust type `u8`. -/
def isU8 (v : ℤ) : Prop := 0 ≤ v ∧ v ≤ 255

/-- `-32768 ≤ v ≤ 32767`: `v` is a value of Rust type `i16`. -/
def isI16 (v : ℤ) : Prop := -32768 ≤ v ∧ v ≤ 32767

/-- `0 ≤ v ≤ 65535`: `v` is a value of Rust type `u16`. -/
def isU16 (v : ℤ) : Prop := 0 ≤ v ∧ v ≤ 65535

instance (v : ℤ) : Decidable (isI8 v) := inferInstanceAs (Decidable (_ ∧ _))
instance (v : ℤ) : Decidable (isU8 v) := inferInstanceAs (Decidable (_ ∧ _))
instance (v : ℤ) : Decidable (isI16 v) := inferInstanceAs (Decidable (_ ∧ _))
instance (v : ℤ) : Decidable (isU16 v) := inferInstanceAs (Decidable (_ ∧ _))

/-- The result lies in the closed interval `[-1, 1]` (of `f32` values). -/
def inUnit (q : ℚ) : Prop := -1 ≤ q ∧ q ≤ 1

/-- Rust signed integer division: truncation toward zero.
(For a non-negative dividend and positive divisor it agrees with `Int`
division.) -/
def rustDiv (a b : ℤ) : ℤ := if 0 ≤ a then a / b else -((-a) / b)

/-- Truncation of a rational toward zero (the rounding used by a Rust
float-to-integer `as` cast). -/
def ratTrunc (q : ℚ) : ℤ := if 0 ≤ q then ⌊q⌋ else -⌊-q⌋

/-- A Rust `as` cast from a float to an integer type with bounds
`lo`/`hi`: truncate toward zero, saturating at the bounds. -/
def satCast (lo hi : ℤ) (q : ℚ) : ℤ := max lo (min hi (ratTrunc q))

namespace Normalize

/-! The 25 scalar instances of `trait Normalize<T>` (lib.rs 493–591),
one definition per `impl`, named `<source>_to_<target>`. -/

/-- `impl Normalize<i8> for i8`: `self`. -/
def i8_to_i8 (v : ℤ) : ℤ := v

/-- `impl Normalize<u8> for i8`: `self.max(0) as u8 * 2`. -/
def i8_to_u8 (v : ℤ) : ℤ := max v 0 * 2

/-- `impl Normalize<i16> for i8`: `self as i16 * 0x100`. -/
def i8_to_i16 (v : ℤ) : ℤ := v * 0x100

/-- `impl Normalize<u16> for i8`: `self.max(0) as u16 * 0x200`. -/
def i8_to_u16 (v : ℤ) : ℤ := max v 0 * 0x200

/-- `impl Normalize<f32> for i8`: `(self as f32 * 127.0_f32.recip()).max(-1.0)`. -/
def i8_to_f32 (v : ℤ) : ℚ := max ((v : ℚ) * (127 : ℚ)⁻¹) (-1)

/-- `impl Normalize<i8> for u8`: `(self / 2) as i8`. -/
def u8_to_i8 (v : ℤ) : ℤ := v / 2

/-- `impl Normalize<u8> for u8`: `self`. -/
def u8_to_u8 (v : ℤ) : ℤ := v

/-- `impl Normalize<i16> for u8`: `self as i16 * 0x80`. -/
def u8_to_i16 (v : ℤ) : ℤ := v * 0x80

/-- `impl Normalize<u16> for u8`: `self.max(0) as u16 * 2`. -/
def u8_to_u16 (v : ℤ) : ℤ := max v 0 * 2

/-- `impl Normalize<f32> for u8`: `(self as f32 * 32767.0_f32.recip()).max(-1.0)`.
Note the divisor `32767`, not `127` and not `255`. -/
def u8_to_f32 (v : ℤ) : ℚ := max ((v : ℚ) * (32767 : ℚ)⁻¹) (-1)

/-- `impl Normalize<i8> for i16`: `(self / 0x100) as i8` (signed division,
truncation toward zero). -/
def i16_to_i8 (v : ℤ) : ℤ := rustDiv v 0x100

/-- `impl Normalize<u8> for i16`: `(self.max(0) / 0x80) as u8`. -/
def i16_to_u8 (v : ℤ) : ℤ := max v 0 / 0x80

/-- `impl Normalize<i16> for i16`: `self`. -/
def i16_to_i16 (v : ℤ) : ℤ := v

/-- `impl Normalize<u16> for i16`: `self.max(0) as u16 * 2`. -/
def i16_to_u16 (v : ℤ) : ℤ := max v 0 * 2

/-- `impl Normalize<f32> for i16`: `(self as f32 * 32767.0_f32.recip()).max(-1.0)`. -/
def i16_to_f32 (v : ℤ) : ℚ := max ((v : ℚ) * (32767 : ℚ)⁻¹) (-1)

/-- `impl Normalize<i8> for u16`: `(self / 0x200) as i8`. -/
def u16_to_i8 (v : ℤ) : ℤ := v / 0x200

/-- `impl Normalize<u8> for u16`: `(self / 0x100) as u8`. -/
def u16_to_u8 (v : ℤ) : ℤ := v / 0x100

/-- `impl Normalize<i16> for u16`: `(self / 2) as i16`. -/
def u16_to_i16 (v : ℤ) : ℤ := v / 2

/-- `impl Normalize<u16> for u16`: `self`. -/
def u16_to_u16 (v : ℤ) : ℤ := v

/-- `impl Normalize<f32> for u16`: `self as f32 * 65535.0_f32.recip()`.
Note: divisor `65535` and no `.max(-1.0)` clamp. -/
def u16_to_f32 (v : ℤ) : ℚ := (v : ℚ) * (65535 : ℚ)⁻¹

/-- `impl Normalize<i8> for f32`: `(self * 127.0) as i8`. -/
def f32_to_i8 (q : ℚ) : ℤ := satCast (-128) 127 (q * 127)

/-- `impl Normalize<u8> for f32`: `(self.max(0.0) * 255.0) as u8`. -/
def f32_to_u8 (q : ℚ) : ℤ := satCast 0 255 (max q 0 * 255)

/-- `impl Normalize<i16> for f32`: `(self * 32767.0) as i16`. -/
def f32_to_i16 (q : ℚ) : ℤ := satCast (-32768) 32767 (q * 32767)

/-- `impl Normalize<u16> for f32`: `(self.max(0.0) * 65535.0) as u16`. -/
def f32_to_u16 (q : ℚ) : ℤ := satCast 0 65535 (max q 0 * 65535)

/-- `impl Normalize<f32> for f32`: `self`. -/
def f32_to_f32 (q : ℚ) : ℚ := q

end Normalize

/-! The three array instances of `Normalize` (lib.rs 593–608): a fixed-size
array is converted by converting each component, in order. -/

/-- `impl Normalize<[T; 2]> for [U; 2]`:
`[self[0].normalize(), self[1].normalize()]`. -/
def normalize2 {α β : Type} (f : α → β) (v : Fin 2 → α) : Fin 2 → β :=
  Matrix.vecCons (f (v 0)) (Matrix.vecCons (f (v 1)) Matrix.vecEmpty)

/-- `impl Normalize<[T; 3]> for [U; 3]`:
`[self[0].normalize(), self[1].normalize(), self[2].normalize()]`. -/
def normalize3 {α β : Type} (f : α → β) (v : Fin 3 → α) : Fin 3 → β :=
  Matrix.vecCons (f (v 0))
    (Matrix.vecCons (f (v 1)) (Matrix.vecCons (f (v 2)) Matrix.vecEmpty))

/-- `impl Normalize<[T; 4]> for [U; 4]`. -/
def normalize4 {α β : Type} (f : α → β) (v : Fin 4 → α) : Fin 4 → β :=
  Matrix.vecCons (f (v 0))
    (Matrix.vecCons (f (v 1))
      (Matrix.vecCons (f (v 2)) (Matrix.vecCons (f (v 3)) Matrix.vecEmpty)))

lemma ratTrunc_of_nonneg (q : ℚ) (h : 0 ≤ q) : ratTrunc q = ⌊q⌋ := if_pos h

lemma satCast_bounds (lo hi : ℤ) (h : lo ≤ hi) (q : ℚ) :
    lo ≤ satCast lo hi q ∧ satCast lo hi q ≤ hi :=
  ⟨le_max_left _ _, max_le h (min_le_left _ _)⟩

/-- When the source value is at least `-c`, the `.max(-1.0)` clamp of an
integer-to-float conversion with divisor `c` is inert. -/
lemma max_neg_one_eq (c : ℚ) (hc : 0 < c) (v : ℤ) (h : -c ≤ (v : ℚ)) :
    max ((v : ℚ) * c⁻¹) (-1) = (v : ℚ) * c⁻¹ := by
  apply max_eq_left
  rw [← div_eq_mul_inv, le_div_iff₀ hc]
  linarith

lemma div_le_one_of_le_den (c : ℚ) (hc : 0 < c) (v : ℤ) (h : (v : ℚ) ≤ c) :
    (v : ℚ) * c⁻¹ ≤ 1 := by
  rw [← div_eq_mul_inv, div_le_one hc]
  exact h

lemma i8_to_f32_unit (v : ℤ) (h : isI8 v) : inUnit (Normalize.i8_to_f32 v) := by
  obtain ⟨_, h2⟩ := h
  refine ⟨le_max_right _ _, max_le (div_le_one_of_le_den 127 (by norm_num) v ?_) (by norm_num)⟩
  exact_mod_cast h2

lemma u8_to_f32_unit (v : ℤ) (h : isU8 v) : inUnit (Normalize.u8_to_f32 v) := by
  obtain ⟨_, h2⟩ := h
  refine ⟨le_max_right _ _, max_le (div_le_one_of_le_den 32767 (by norm_num) v ?_) (by norm_num)⟩
  have : (v : ℚ) ≤ 255 := by exact_mod_cast h2
  linarith

lemma i16_to_f32_unit (v : ℤ) (h : isI16 v) : inUnit (Normalize.i16_to_f32 v) := by
  obtain ⟨_, h2⟩ := h
  refine ⟨le_max_right _ _, max_le (div_le_one_of_le_den 32767 (by norm_num) v ?_) (by norm_num)⟩
  exact_mod_cast h2

lemma u16_to_f32_unit (v : ℤ) (h : isU16 v) : inUnit (Normalize.u16_to_f32 v) := by
  obtain ⟨h1, h2⟩ := h
  have hv1 : (0 : ℚ) ≤ (v : ℚ) := by exact_mod_cast h1
  have hv2 : (v : ℚ) ≤ 65535 := by exact_mod_cast h2
  unfold Normalize.u16_to_f32
  constructor
  · have : (0 : ℚ) ≤ (v : ℚ) * (65535 : ℚ)⁻¹ := by positivity
    linarith
  · exact div_le_one_of_le_den 65535 (by norm_num) v hv2

/-- The integer-to-float rule exactly as the claim words it for a 16-bit
unsigned source: divide by the signed type's maximum magnitude of that
width (32767) and clamp the result's lower bound at -1. -/
def claimU16ToF32 (v : ℤ) : ℚ := max ((v : ℚ) * (32767 : ℚ)⁻¹) (-1)

/-- C2 (counterexample): at the `u16` source value 65535 the code divides
by 65535 (yielding exactly 1), not by the signed maximum 32767 as the
claim states. -/
theorem u16_to_f32_divisor_cex :
    Normalize.u16_to_f32 65535 ≠ claimU16ToF32 65535 := by
  have hl : Normalize.u16_to_f32 65535 = 1 := by
    unfold Normalize.u16_to_f32; norm_num
  have hr : claimU16ToF32 65535 = 65535 * (32767 : ℚ)⁻¹ := by
    unfold claimU16ToF32
    push_cast
    exact max_eq_left (by norm_num)
  rw [hl, hr]
  intro h
  have h2 : (1 : ℚ) * 32767 = 65535 * (32767 : ℚ)⁻¹ * 32767 := by rw [← h]
  rw [mul_assoc, inv_mul_cancel₀ (by norm_num), mul_one] at h2
  norm_num at h2

/-- C2 (amended): each integer-to-float conversion divides by a fixed
divisor and (except for the `u16` source) clamps the result below at -1.
The divisor is 127 for `i8`, 32767 for `u8` and `i16`, and 65535 for
`u16`; the clamp only takes effect at `i8 = -128` and `i16 = -32768`.
The divisor is characterized by multiplication: away from the clamp,
multiplying the result by the divisor recovers the source value. -/
theorem normalize_to_float_divisors :
    (∀ v : ℤ, -127 ≤ v → Normalize.i8_to_f32 v * 127 = v) ∧
    Normalize.i8_to_f32 (-128) = -1 ∧
    (∀ v : ℤ, 0 ≤ v → Normalize.u8_to_f32 v * 32767 = v) ∧
    (∀ v : ℤ, -32767 ≤ v → Normalize.i16_to_f32 v * 32767 = v) ∧
    Normalize.i16_to_f32 (-32768) = -1 ∧
    (∀ v : ℤ, Normalize.u16_to_f32 v * 65535 = v) := by
  refine ⟨fun v h => ?_, ?_, fun v h => ?_, fun v h => ?_, ?_, fun v => ?_⟩
  · unfold Normalize.i8_to_f32
    rw [max_neg_one_eq 127 (by norm_num) v (by exact_mod_cast h),
      mul_assoc, inv_mul_cancel₀ (by norm_num), mul_one]
  · unfold Normalize.i8_to_f32
    push_cast
    apply max_eq_right
    norm_num
  · unfold Normalize.u8_to_f32
    have : (-32767 : ℚ) ≤ (v : ℚ) := by
      have : (0 : ℚ) ≤ (v : ℚ) := by exact_mod_cast h
      linarith
    rw [max_neg_one_eq 32767 (by norm_num) v this,
      mul_assoc, inv_mul_cancel₀ (by norm_num), mul_one]
  · unfold Normalize.i16_to_f32
    rw [max_neg_one_eq 32767 (by norm_num) v (by exact_mod_cast h),
      mul_assoc, inv_mul_cancel₀ (by norm_num), mul_one]
  · unfold Normalize.i16_to_f32
    push_cast
    apply max_eq_right
    norm_num
  · unfold Normalize.u16_to_f32
    rw [mul_assoc, inv_mul_cancel₀ (by norm_num), mul_one]

/-- C2 (witness): the amended theorem applied at the extreme values of
each encoding. -/
theorem normalize_to_float_divisors_w :
    Normalize.i8_to_f32 127 * 127 = ((127 : ℤ) : ℚ) ∧
    Normalize.u8_to_f32 255 * 32767 = ((255 : ℤ) : ℚ) ∧
    Normalize.i16_to_f32 (-32767) * 32767 = ((-32767 : ℤ) : ℚ) ∧
    Normalize.u16_to_f32 65535 * 65535 = ((65535 : ℤ) : ℚ) :=
  ⟨normalize_to_float_divisors.1 127 (by norm_num),
   normalize_to_float_divisors.2.2.1 255 (by norm_num),
   normalize_to_float_divisors.2.2.2.1 (-32767) (by norm_num),
   normalize_to_float_divisors.2.2.2.2.2 65535⟩

/-- C3 (code evaluated at the failing input): the `u8 → f32` instance
divides by 32767 — the body of the `i16` instance — instead of an 8-bit
divisor, so the round trip `u8 → f32 → u8` at the source value 255
returns 1, which is not within one unit of 255. -/
theorem u8_float_roundtrip_at_255 :
    Normalize.f32_to_u8 (Normalize.u8_to_f32 255) = 1 := by
  have h1 : Normalize.u8_to_f32 255 = 255 * (32767 : ℚ)⁻¹ := by
    unfold Normalize.u8_to_f32
    push_cast
    exact max_eq_left (by norm_num)
  rw [h1]
  unfold Normalize.f32_to_u8 satCast
  have hmax : max (255 * (32767 : ℚ)⁻¹) 0 = 255 * (32767 : ℚ)⁻¹ :=
    max_eq_left (by positivity)
  have h2 : ⌊255 * (32767 : ℚ)⁻¹ * 255⌋ = (1 : ℤ) := by
    rw [Int.floor_eq_iff]
    norm_num
  rw [hmax, ratTrunc_of_nonneg _ (by positivity), h2]
  norm_num

/-- C4: every integer-to-float conversion of the matrix lands in the
closed interval `[-1, 1]`, for signed and unsigned sources alike. -/
theorem normalize_to_float_in_unit (v : ℤ) :
    (isI8 v → inUnit (Normalize.i8_to_f32 v)) ∧
    (isU8 v → inUnit (Normalize.u8_to_f32 v)) ∧
    (isI16 v → inUnit (Normalize.i16_to_f32 v)) ∧
    (isU16 v → inUnit (Normalize.u16_to_f32 v)) :=
  ⟨i8_to_f32_unit v, u8_to_f32_unit v, i16_to_f32_unit v, u16_to_f32_unit v⟩

/-- C4 (witness): the bounds at concrete extreme source values. -/
theorem normalize_to_float_in_unit_w :
    inUnit (Normalize.i8_to_f32 (-128)) ∧ inUnit (Normalize.u8_to_f32 255) ∧
    inUnit (Normalize.i16_to_f32 (-32768)) ∧ inUnit (Normalize.u16_to_f32 65535) :=
  ⟨(normalize_to_float_in_unit (-128)).1 (by norm_num [isI8]),
   (normalize_to_float_in_unit 255).2.1 (by norm_num [isU8]),
   (normalize_to_float_in_unit (-32768)).2.2.1 (by norm_num [isI16]),
   (normalize_to_float_in_unit 65535).2.2.2 (by norm_num [isU16])⟩

/-- C8: every one of the 25 scalar conversions is total: on any source
value in range (any rational at all for an `f32` source) it produces a
value in the range of its target type, with no intermediate overflow
(the arithmetic here is exact) and no panic (negative sources clamp into
unsigned targets; float sources truncate with saturation). -/
theorem normalize_total (v : ℤ) (q : ℚ) :
    (isI8 v →
      isI8 (Normalize.i8_to_i8 v) ∧ isU8 (Normalize.i8_to_u8 v) ∧
      isI16 (Normalize.i8_to_i16 v) ∧ isU16 (Normalize.i8_to_u16 v) ∧
      inUnit (Normalize.i8_to_f32 v)) ∧
    (isU8 v →
      isI8 (Normalize.u8_to_i8 v) ∧ isU8 (Normalize.u8_to_u8 v) ∧
      isI16 (Normalize.u8_to_i16 v) ∧ isU16 (Normalize.u8_to_u16 v) ∧
      inUnit (Normalize.u8_to_f32 v)) ∧
    (isI16 v →
      isI8 (Normalize.i16_to_i8 v) ∧ isU8 (Normalize.i16_to_u8 v) ∧
      isI16 (Normalize.i16_to_i16 v) ∧ isU16 (Normalize.i16_to_u16 v) ∧
      inUnit (Normalize.i16_to_f32 v)) ∧
    (isU16 v →
      isI8 (Normalize.u16_to_i8 v) ∧ isU8 (Normalize.u16_to_u8 v) ∧
      isI16 (Normalize.u16_to_i16 v) ∧ isU16 (Normalize.u16_to_u16 v) ∧
      inUnit (Normalize.u16_to_f32 v)) ∧
    (isI8 (Normalize.f32_to_i8 q) ∧ isU8 (Normalize.f32_to_u8 q) ∧
      isI16 (Normalize.f32_to_i16 q) ∧ isU16 (Normalize.f32_to_u16 q) ∧
      Normalize.f32_to_f32 q = q) := by
  refine ⟨fun h => ⟨?_, ?_, ?_, ?_, i8_to_f32_unit v h⟩,
    fun h => ⟨?_, ?_, ?_, ?_, u8_to_f32_unit v h⟩,
    fun h => ⟨?_, ?_, ?_, ?_, i16_to_f32_unit v h⟩,
    fun h => ⟨?_, ?_, ?_, ?_, u16_to_f32_unit v h⟩,
    ?_, ?_, ?_, ?_, rfl⟩ <;>
  first
  | (exact satCast_bounds _ _ (by norm_num) _)
  | (simp only [Normalize.i8_to_i8, Normalize.i8_to_u8, Normalize.i8_to_i16,
      Normalize.i8_to_u16, Normalize.u8_to_i8, Normalize.u8_to_u8,
      Normalize.u8_to_i16, Normalize.u8_to_u16, Normalize.i16_to_i8,
      Normalize.i16_to_u8, Normalize.i16_to_i16, Normalize.i16_to_u16,
      Normalize.u16_to_i8, Normalize.u16_to_u8, Normalize.u16_to_i16,
      Normalize.u16_to_u16, rustDiv, isI8, isU8, isI16, isU16] at *;
     (try split) <;> omega)

/-- C8 (witness): totality instantiated at concrete values. -/
theorem normalize_total_w :
    isU8 (Normalize.i8_to_u8 (-100)) ∧ isI8 (Normalize.i16_to_i8 (-32768)) ∧
    isU16 (Normalize.i16_to_u16 32767) ∧ isI8 (Normalize.f32_to_i8 100) :=
  ⟨((normalize_total (-100) 0).1 (by norm_num [isI8])).2.1,
   ((normalize_total (-32768) 0).2.2.1 (by norm_num [isI16])).1,
   ((normalize_total 32767 0).2.2.1 (by norm_num [isI16])).2.2.2.1,
   ((normalize_total 0 100).2.2.2.2).1⟩

/-- C9: the array conversions apply the scalar conversion to each
component independently, for every scalar conversion `f` and every
2-, 3- or 4-component vector: component `i` of the converted vector is
`f` applied to component `i` of the source.  In particular no
cross-component (unit-length) renormalization occurs. -/
theorem normalize_vec_elementwise {α β : Type} (f : α → β)
    (v2 : Fin 2 → α) (v3 : Fin 3 → α) (v4 : Fin 4 → α) :
    (∀ i, normalize2 f v2 i = f (v2 i)) ∧
    (∀ i, normalize3 f v3 i = f (v3 i)) ∧
    (∀ i, normalize4 f v4 i = f (v4 i)) := by
  refine ⟨fun i => ?_, fun i => ?_, fun i => ?_⟩ <;> fin_cases i <;> rfl

/-- C10: the five same-type conversions of the matrix are exact
identities on every value. -/
theorem normalize_identity (v : ℤ) (q : ℚ) :
    Normalize.i8_to_i8 v = v ∧ Normalize.u8_to_u8 v = v ∧
    Normalize.i16_to_i16 v = v ∧ Normalize.u16_to_u16 v = v ∧
    Normalize.f32_to_f32 q = q :=
  ⟨rfl, rfl, rfl, rfl, rfl⟩

/-! ## Document graph, loaders and validation gate

The schema types live in the external `gltf_json` crate (an external
collaborator per the spec), so the entity records are modelled from the
spec (§3): one record type per category, ordered sequences per category,
all cross-entity references by index.  Only the fields the claims touch
are given structure (`SceneJson.nodes`, `NodeJson.children`, the
top-level optional `scene` reference). -/

/-- Modelled from the spec: an accessor record (opaque to the claims). -/
structure AccessorJson where
  name : Option String
  deriving DecidableEq

/-- Modelled from the spec: an animation record. -/
structure AnimationJson where
  name : Option String
  deriving DecidableEq

/-- Modelled from the spec: a buffer record. -/
structure BufferJson where
  byteLength : Nat
  deriving DecidableEq

/-- Modelled from the spec: a buffer-view record. -/
structure BufferViewJson where
  buffer : Nat
  deriving DecidableEq

/-- Modelled from the spec: a camera record. -/
structure CameraJson where
  name : Option String
  deriving DecidableEq

/-- Modelled from the spec: an image record. -/
structure ImageJson where
  name : Option String
  deriving DecidableEq

/-- Modelled from the spec: a material record. -/
structure MaterialJson where
  name : Option String
  deriving DecidableEq

/-- Modelled from the spec: a mesh record. -/
structure MeshJson where
  name : Option String
  deriving DecidableEq

/-- Modelled from the spec: a node record; children are index references
into the node sequence. -/
structure NodeJson where
  children : List Nat
  name : Option String
  deriving DecidableEq

/-- Modelled from the spec: a sampler record. -/
structure SamplerJson where
  name : Option String
  deriving DecidableEq

/-- Modelled from the spec: a scene record; root nodes are index
references into the node sequence. -/
structure SceneJson where
  nodes : List Nat
  name : Option String
  deriving DecidableEq

/-- Modelled from the spec: a skin record. -/
structure SkinJson where
  name : Option String
  deriving DecidableEq

/-- Modelled from the spec: a texture record. -/
structure TextureJson where
  name : Option String
  deriving DecidableEq

/-- Modelled from the spec (§3): the deserialized schema tree
(`json::Root`): one ordered entity sequence per category, the optional
top-level default-scene index reference, and the declared extension name
lists. -/
structure Root where
  accessors : List AccessorJson
  animations : List AnimationJson
  buffers : List BufferJson
  bufferViews : List BufferViewJson
  cameras : List CameraJson
  images : List ImageJson
  materials : List MaterialJson
  meshes : List MeshJson
  nodes : List NodeJson
  samplers : List SamplerJson
  scene : Option Nat
  scenes : List SceneJson
  skins : List SkinJson
  textures : List TextureJson
  extensionsUsed : List String
  extensionsRequired : List String
  deriving DecidableEq

/-- Modelled from the spec (§4.4): the external structural validator
(`json::validation::Validate::validate_minimally`) is a black box that,
over a full walk of the tree, emits (path, diagnostic) pairs; it is
modelled as an arbitrary function returning the emitted pairs in
emission order. -/
structure Validator where
  validateMinimally : Root → List (String × String)

/-- `enum Error` (lib.rs 142–187), restricted to the variants the
modelled load paths can produce; the payloads of external error types
(`binary::Error`, `json::Error`, `io::Error`) are elided. -/
inductive GError where
  | Binary : GError
  | Deserialize : GError
  | IoError : GError
  | Validation : List (String × String) → GError
  deriving DecidableEq

/-- `pub struct Document(json::Root)` (lib.rs 201). -/
structure Document where
  root : Root
  deriving DecidableEq

/-- `pub struct Gltf` (lib.rs 191–197): a document plus the optional
binary payload. -/
structure Gltf where
  document : Document
  blob : Option (List Nat)
  deriving DecidableEq

/-- Modelled from the spec (§3): a Resolved View — a transient read-only
handle pairing a back-reference to the owning Document with the entity's
index (the concrete view types live in the crate's `scene`/`iter`/…
modules, which are not under src/). -/
structure View (ε : Type) where
  document : Document
  index : Nat
  json : ε
  deriving DecidableEq

/-- `Scene` Resolved Views, as produced by `Document::scenes`. -/
abbrev Scene := View SceneJson

/-- Modelled from the spec (§4.3): a per-category traversal operation
(`iter.iter().enumerate()` wrapped into views) yields one Resolved View
per entity of the category, preserving declaration order; the lazy
restartable iterator is modelled by the list of views it yields. -/
def Document.viewsOf {ε : Type} (d : Document) (l : List ε) : List (View ε) :=
  l.enum.map fun p => ⟨d, p.1, p.2⟩

/-- `Document::accessors` (lib.rs 309–314). -/
def Document.accessors (d : Document) : List (View AccessorJson) :=
  d.viewsOf d.root.accessors

/-- `Document::animations` (lib.rs 317–322). -/
def Document.animations (d : Document) : List (View AnimationJson) :=
  d.viewsOf d.root.animations

/-- `Document::buffers` (lib.rs 325–330). -/
def Document.buffers (d : Document) : List (View BufferJson) :=
  d.viewsOf d.root.buffers

/-- `Document::cameras` (lib.rs 333–338). -/
def Document.cameras (d : Document) : List (View CameraJson) :=
  d.viewsOf d.root.cameras

/-- `Document::images` (lib.rs 359–364). -/
def Document.images (d : Document) : List (View ImageJson) :=
  d.viewsOf d.root.images

/-- `Document::materials` (lib.rs 367–372). -/
def Document.materials (d : Document) : List (View MaterialJson) :=
  d.viewsOf d.root.materials

/-- `Document::meshes` (lib.rs 375–380). -/
def Document.meshes (d : Document) : List (View MeshJson) :=
  d.viewsOf d.root.meshes

/-- `Document::nodes` (lib.rs 383–388). -/
def Document.nodes (d : Document) : List (View NodeJson) :=
  d.viewsOf d.root.nodes

/-- `Document::samplers` (lib.rs 391–396). -/
def Document.samplers (d : Document) : List (View SamplerJson) :=
  d.viewsOf d.root.samplers

/-- `Document::scenes` (lib.rs 399–404). -/
def Document.scenes (d : Document) : List Scene :=
  d.viewsOf d.root.scenes

/-- `Document::skins` (lib.rs 407–412). -/
def Document.skins (d : Document) : List (View SkinJson) :=
  d.viewsOf d.root.skins

/-- `Document::textures` (lib.rs 415–420). -/
def Document.textures (d : Document) : List (View TextureJson) :=
  d.viewsOf d.root.textures

/-- `Document::views` (lib.rs 424–429). -/
def Document.views (d : Document) : List (View BufferViewJson) :=
  d.viewsOf d.root.bufferViews

/-- `Document::extensions_used` (lib.rs 349–351). -/
def Document.extensions_used (d : Document) : List String :=
  d.root.extensionsUsed

/-- `Document::extensions_required` (lib.rs 354–356). -/
def Document.extensions_required (d : Document) : List String :=
  d.root.extensionsRequired

/-- `Document::from_json_without_validation` (lib.rs 283–285):
`Document(json)`. -/
def Document.from_json_without_validation (json : Root) : Document :=
  ⟨json⟩

/-- `Document::into_json` (lib.rs 288–290): `self.0`. -/
def Document.into_json (d : Document) : Root :=
  d.root

/-- `Document::validate` (lib.rs 293–306): runs the external validator
over the whole tree with a collector closure that pushes every
(path, error) pair onto `errors`, then returns `Ok(())` when no
diagnostics were collected and `Err(Error::Validation(errors))` with the
complete list otherwise. -/
def Document.validate (d : Document) (V : Validator) : Except GError Unit :=
  let errors := (V.validateMinimally d.root).foldl (fun acc pe => acc ++ [pe]) []
  if errors.isEmpty then .ok () else .error (.Validation errors)

/-- `Document::from_json` (lib.rs 275–279). -/
def Document.from_json (V : Validator) (json : Root) : Except GError Document :=
  let document := Document.from_json_without_validation json
  match document.validate V with
  | .ok _ => .ok document
  | .error e => .error e

/-- `Document::default_scene` (lib.rs 341–346): maps the optional
top-level scene index to `self.scenes().nth(index.value()).unwrap()`.
The `unwrap` of a missing element is a panic, modelled as
`Except.error ()`. -/
def Document.default_scene (d : Document) : Except Unit (Option Scene) :=
  match d.root.scene with
  | none => .ok none
  | some index =>
    match d.scenes.get? index with
    | some s => .ok (some s)
    | none => .error ()

/-- The four magic bytes `b"glTF"` that open a binary container. -/
def glbMagic : List Nat := [0x67, 0x6C, 0x54, 0x46]

/-- Little-endian 32-bit value of exactly four bytes. -/
def le32 : List Nat → Nat
  | [a, b, c, d] => a + 256 * b + 65536 * c + 16777216 * d
  | _ => 0

/-- The chunk-type tag of the JSON chunk (ASCII `JSON`). -/
def jsonChunkType : List Nat := [0x4A, 0x53, 0x4F, 0x4E]

/-- The chunk-type tag of the binary-payload chunk (ASCII `BIN\0`). -/
def binChunkType : List Nat := [0x42, 0x49, 0x4E, 0x00]

/-- Modelled from the spec (§4.2 steps 3–4): sequential chunk reading of
the binary container (the crate's `binary` module is not under src/).
Each chunk is an 8-byte header (length, type), `length` payload bytes,
then padding to the next 4-byte boundary; the first chunk must be
JSON-typed, at most one later chunk is the binary payload, other chunk
types are skipped.  The fuel argument bounds the recursion; the caller
passes the input length, which suffices since every chunk consumes at
least one byte. -/
def parseChunks : Nat → List Nat → Bool → Option (List Nat) → Option (List Nat) →
    Except GError (List Nat × Option (List Nat))
  | _, [], _, json?, bin? =>
    match json? with
    | some j => .ok (j, bin?)
    | none => .error .Binary
  | 0, _ :: _, _, _, _ => .error .Binary
  | fuel + 1, b :: bs, isFirst, json?, bin? =>
    let bytes := b :: bs
    if bytes.length < 8 then .error .Binary
    else
      let len := le32 (bytes.take 4)
      let ty := (bytes.drop 4).take 4
      let rest := bytes.drop 8
      if rest.length < len then .error .Binary
      else
        let payload := rest.take len
        let rest2 := rest.drop (len + (4 - len % 4) % 4)
        if isFirst then
          if ty = jsonChunkType then parseChunks fuel rest2 false (some payload) bin?
          else .error .Binary
        else if ty = binChunkType ∧ bin? = none then
          parseChunks fuel rest2 false json? (some payload)
        else parseChunks fuel rest2 false json? bin?

/-- Modelled from the spec (§4.2 steps 2 and 5, §6):
`binary::Glb::from_slice` / `binary::Glb::from_reader` — a fixed
12-byte header (magic, version, total declared length, little-endian)
followed by the chunk stream; returns the JSON chunk payload and the
optional binary chunk payload. -/
def glbFromSlice (input : List Nat) : Except GError (List Nat × Option (List Nat)) :=
  if input.length < 12 then .error .Binary
  else if input.take 4 ≠ glbMagic then .error .Binary
  else
    let total := le32 ((input.drop 8).take 4)
    if total < 12 ∨ input.length < total then .error .Binary
    else parseChunks input.length ((input.take total).drop 12) true none none

/-- `Gltf::from_slice_without_validation` (lib.rs 238–250).  The
external JSON deserializer is the parameter `deser`; an in-memory byte
slice is a list of byte values. -/
def Gltf.from_slice_without_validation (deser : List Nat → Except GError Root)
    (slice : List Nat) : Except GError Gltf :=
  if slice.take 4 = glbMagic then
    match glbFromSlice slice with
    | .error e => .error e
    | .ok (jsonBytes, bin) =>
      match deser jsonBytes with
      | .error e => .error e
      | .ok json => .ok ⟨Document.from_json_without_validation json, bin⟩
  else
    match deser slice with
    | .error e => .error e
    | .ok json => .ok ⟨Document.from_json_without_validation json, none⟩

/-- `Gltf::from_reader_without_validation` (lib.rs 205–224): reads
exactly 4 magic bytes from the reader (`read_exact` fails with an I/O
error — `UnexpectedEof` — when fewer are available), seeks back to the
start, then branches exactly as the slice loader does.  A seekable
reader over an in-memory byte sequence is modelled by the byte list
itself. -/
def Gltf.from_reader_without_validation (deser : List Nat → Except GError Root)
    (input : List Nat) : Except GError Gltf :=
  if input.length < 4 then .error .IoError
  else if input.take 4 = glbMagic then
    match glbFromSlice input with
    | .error e => .error e
    | .ok (jsonBytes, bin) =>
      match deser jsonBytes with
      | .error e => .error e
      | .ok json => .ok ⟨Document.from_json_without_validation json, bin⟩
  else
    match deser input with
    | .error e => .error e
    | .ok json => .ok ⟨Document.from_json_without_validation json, none⟩

/-- `Gltf::from_slice` (lib.rs 253–257): the unvalidated load followed
by the validation gate. -/
def Gltf.from_slice (V : Validator) (deser : List Nat → Except GError Root)
    (slice : List Nat) : Except GError Gltf :=
  match Gltf.from_slice_without_validation deser slice with
  | .error e => .error e
  | .ok gltf =>
    match gltf.document.validate V with
    | .error e => .error e
    | .ok _ => .ok gltf

/-- `Gltf::from_reader` (lib.rs 227–234). -/
def Gltf.from_reader (V : Validator) (deser : List Nat → Except GError Root)
    (input : List Nat) : Except GError Gltf :=
  match Gltf.from_reader_without_validation deser input with
  | .error e => .error e
  | .ok gltf =>
    match gltf.document.validate V with
    | .error e => .error e
    | .ok _ => .ok gltf

/-- The spec's words (§4.2 step 1, §8) for a bare-JSON load: the entire
input goes to the JSON deserializer and the loaded asset carries no
binary payload. -/
def bareJsonLoad (deser : List Nat → Except GError Root) (input : List Nat) :
    Except GError Gltf :=
  match deser input with
  | .error e => .error e
  | .ok json => .ok ⟨Document.from_json_without_validation json, none⟩

/-- The spec's words (§4.2 step 5) for a binary-container load: the
container parser extracts the JSON chunk and the optional binary chunk;
the JSON chunk goes to the deserializer and the binary chunk becomes the
blob. -/
def glbLoad (deser : List Nat → Except GError Root) (input : List Nat) :
    Except GError Gltf :=
  match glbFromSlice input with
  | .error e => .error e
  | .ok (jsonBytes, bin) =>
    match deser jsonBytes with
    | .error e => .error e
    | .ok json => .ok ⟨Document.from_json_without_validation json, bin⟩

/-! ### Sample data used by witnesses and counterexamples -/

/-- An empty schema tree with one scene, referenced as the default. -/
def rootEx : Root :=
  ⟨[], [], [], [], [], [], [], [], [⟨[], none⟩], [], some 0, [⟨[0], none⟩], [], [], [], []⟩

/-- The document wrapping `rootEx`. -/
def docEx : Document := ⟨rootEx⟩

/-- A deserializer that accepts any input as `rootEx` (external
collaborator, instantiated concretely). -/
def deserEx : List Nat → Except GError Root := fun _ => .ok rootEx

/-- A validator whose full pass over any tree emits one diagnostic. -/
def valEx : Validator := ⟨fun _ => [("scenes 0", "index out of range")]⟩

/-! ### Theorems about the document graph -/

lemma foldl_push {α : Type} (l acc : List α) :
    l.foldl (fun a x => a ++ [x]) acc = acc ++ l := by
  induction l generalizing acc with
  | nil => simp
  | cons x xs ih => simp [ih]

/-- `Document::validate` in closed form: `Ok(())` on an empty diagnostic
list, otherwise an error carrying the whole list. -/
lemma validate_eq (d : Document) (V : Validator) :
    d.validate V =
      if V.validateMinimally d.root = [] then .ok ()
      else .error (.Validation (V.validateMinimally d.root)) := by
  unfold Document.validate
  rw [foldl_push]
  simp only [List.nil_append, List.isEmpty_iff]

lemma viewsOf_get? {ε : Type} (d : Document) (l : List ε) (i : Nat) :
    (d.viewsOf l).get? i = (l.get? i).map fun a => ⟨d, i, a⟩ := by
  unfold Document.viewsOf
  rw [List.get?_map, List.get?_enum]
  cases l.get? i <;> rfl

/-- C5: unwrapping a Document to its schema tree and rewrapping it
without validation reproduces the document exactly, hence every
traversal operation — each per-category listing, the extension queries
and the default-scene resolution — returns entities identical by field
value to the original's. -/
theorem from_json_into_json_roundtrip (d : Document) :
    Document.from_json_without_validation (Document.into_json d) = d ∧
    (Document.from_json_without_validation (Document.into_json d)).accessors = d.accessors ∧
    (Document.from_json_without_validation (Document.into_json d)).animations = d.animations ∧
    (Document.from_json_without_validation (Document.into_json d)).buffers = d.buffers ∧
    (Document.from_json_without_validation (Document.into_json d)).cameras = d.cameras ∧
    (Document.from_json_without_validation (Document.into_json d)).images = d.images ∧
    (Document.from_json_without_validation (Document.into_json d)).materials = d.materials ∧
    (Document.from_json_without_validation (Document.into_json d)).meshes = d.meshes ∧
    (Document.from_json_without_validation (Document.into_json d)).nodes = d.nodes ∧
    (Document.from_json_without_validation (Document.into_json d)).samplers = d.samplers ∧
    (Document.from_json_without_validation (Document.into_json d)).scenes = d.scenes ∧
    (Document.from_json_without_validation (Document.into_json d)).skins = d.skins ∧
    (Document.from_json_without_validation (Document.into_json d)).textures = d.textures ∧
    (Document.from_json_without_validation (Document.into_json d)).views = d.views ∧
    (Document.from_json_without_validation (Document.into_json d)).extensions_used = d.extensions_used ∧
    (Document.from_json_without_validation (Document.into_json d)).extensions_required = d.extensions_required ∧
    (Document.from_json_without_validation (Document.into_json d)).default_scene = d.default_scene :=
  ⟨rfl, rfl, rfl, rfl, rfl, rfl, rfl, rfl, rfl, rfl, rfl, rfl, rfl, rfl,
   rfl, rfl, rfl⟩

/-- C7: `default_scene()` returns `None` exactly when the top-level
scene reference is absent; when the reference is present and in range it
returns (without panicking) the Resolved View of the scene at that
index. -/
theorem default_scene_spec (d : Document) :
    (d.default_scene = .ok none ↔ d.root.scene = none) ∧
    (∀ i, d.root.scene = some i → ∀ hlt : i < d.root.scenes.length,
      d.default_scene = .ok (some ⟨d, i, d.root.scenes.get ⟨i, hlt⟩⟩)) := by
  constructor
  · cases hs : d.root.scene with
    | none => simp [Document.default_scene, hs]
    | some i =>
      simp only [Document.default_scene, hs]
      cases hg : (d.scenes).get? i <;> simp
  · intro i hi hlt
    have hv : (d.scenes).get? i = some ⟨d, i, d.root.scenes.get ⟨i, hlt⟩⟩ := by
      have := viewsOf_get? d d.root.scenes i
      rw [List.get?_eq_get hlt] at this
      exact this
    simp only [Document.default_scene, hi]
    rw [hv]

/-- C7 (witness): on the sample document the present, in-range reference
`scene = 0` resolves to the view of scene 0. -/
theorem default_scene_spec_w :
    docEx.default_scene = .ok (some ⟨docEx, 0, rootEx.scenes.get ⟨0, by decide⟩⟩) :=
  (default_scene_spec docEx).2 0 rfl (by decide)

/-- C1: the validation gate returns `Ok(())` exactly when the external
validator's full pass emits no diagnostic, and otherwise fails with the
complete aggregated (path, diagnostic) list of that one pass; the
validated loaders (`from_slice`, `from_reader`, `from_json`) therefore
succeed exactly on a zero-diagnostic pass and otherwise fail with that
full list. -/
theorem validate_aggregates_all (V : Validator)
    (deser : List Nat → Except GError Root) (slice input : List Nat)
    (g g2 : Gltf) (r : Root)
    (hs : Gltf.from_slice_without_validation deser slice = .ok g)
    (hr : Gltf.from_reader_without_validation deser input = .ok g2) :
    (∀ d : Document, d.validate V = .ok () ↔ V.validateMinimally d.root = []) ∧
    (∀ d : Document, V.validateMinimally d.root ≠ [] →
      d.validate V = .error (.Validation (V.validateMinimally d.root))) ∧
    (Gltf.from_slice V deser slice = .ok g ↔
      V.validateMinimally g.document.root = []) ∧
    (V.validateMinimally g.document.root ≠ [] →
      Gltf.from_slice V deser slice =
        .error (.Validation (V.validateMinimally g.document.root))) ∧
    (Gltf.from_reader V deser input = .ok g2 ↔
      V.validateMinimally g2.document.root = []) ∧
    (V.validateMinimally g2.document.root ≠ [] →
      Gltf.from_reader V deser input =
        .error (.Validation (V.validateMinimally g2.document.root))) ∧
    (Document.from_json V r = .ok ⟨r⟩ ↔ V.validateMinimally r = []) ∧
    (V.validateMinimally r ≠ [] →
      Document.from_json V r = .error (.Validation (V.validateMinimally r))) := by
  have h1 : ∀ d : Document, d.validate V = .ok () ↔ V.validateMinimally d.root = [] := by
    intro d
    rw [validate_eq]
    split_ifs with h <;> simp [h]
  have h2 : ∀ d : Document, V.validateMinimally d.root ≠ [] →
      d.validate V = .error (.Validation (V.validateMinimally d.root)) := by
    intro d h
    rw [validate_eq, if_neg h]
  have es : Gltf.from_slice V deser slice =
      (match g.document.validate V with
       | .error e => .error e
       | .ok _ => .ok g) := by
    unfold Gltf.from_slice
    rw [hs]
  have er : Gltf.from_reader V deser input =
      (match g2.document.validate V with
       | .error e => .error e
       | .ok _ => .ok g2) := by
    unfold Gltf.from_reader
    rw [hr]
  have ej : Document.from_json V r =
      (match (Document.mk r).validate V with
       | .ok _ => .ok ⟨r⟩
       | .error e => .error e) := by
    unfold Document.from_json Document.from_json_without_validation
    cases hv2 : (Document.mk r).validate V <;> simp [hv2]
  refine ⟨h1, h2, ?_, ?_, ?_, ?_, ?_, ?_⟩
  · by_cases hv : V.validateMinimally g.document.root = []
    · rw [es, (h1 g.document).2 hv]
      simp [hv]
    · rw [es, h2 g.document hv]
      simp [hv]
  · intro hne
    rw [es, h2 g.document hne]
  · by_cases hv : V.validateMinimally g2.document.root = []
    · rw [er, (h1 g2.document).2 hv]
      simp [hv]
    · rw [er, h2 g2.document hv]
      simp [hv]
  · intro hne
    rw [er, h2 g2.document hne]
  · by_cases hv : V.validateMinimally r = []
    · rw [ej, (h1 ⟨r⟩).2 hv]
      simp [hv]
    · rw [ej, h2 ⟨r⟩ hv]
      simp [hv]
  · intro hne
    rw [ej, h2 ⟨r⟩ hne]

/-- C1 (witness): with a validator whose pass emits one diagnostic, the
validated slice loader fails with exactly that aggregated list. -/
theorem validate_aggregates_all_w :
    Gltf.from_slice valEx deserEx [] =
      .error (.Validation (valEx.validateMinimally rootEx)) :=
  (validate_aggregates_all valEx deserEx [] [123, 34, 97, 34]
      ⟨⟨rootEx⟩, none⟩ ⟨⟨rootEx⟩, none⟩ rootEx rfl rfl).2.2.2.1 (by decide)

/-- C6 (counterexample): a one-byte input does not start with the binary
magic, yet `from_reader_without_validation` does not treat it as bare
JSON: reading the four magic bytes fails first, so the loader returns an
I/O error even under a deserializer that accepts the input. -/
theorem from_reader_short_input_cex :
    ([65] : List Nat).take 4 ≠ glbMagic ∧
    Gltf.from_reader_without_validation deserEx [65] = .error .IoError ∧
    bareJsonLoad deserEx [65] = .ok ⟨⟨rootEx⟩, none⟩ ∧
    Gltf.from_reader_without_validation deserEx [65] ≠ bareJsonLoad deserEx [65] :=
  ⟨by decide, rfl, rfl, fun h => Except.noConfusion h⟩

/-- C6 (amended): `from_slice_without_validation` treats every input not
starting with the magic — including inputs shorter than four bytes — as
bare JSON with no binary payload; `from_reader_without_validation` does
so for inputs of at least four bytes whose first four bytes are not the
magic, but fails with an I/O error on shorter inputs before consulting
the deserializer; an input starting with the magic takes the
binary-container path. -/
theorem bare_json_load_spec (deser : List Nat → Except GError Root)
    (slice input : List Nat)
    (hns : slice.take 4 ≠ glbMagic)
    (hni : input.take 4 ≠ glbMagic) (hlen : 4 ≤ input.length) :
    Gltf.from_slice_without_validation deser slice = bareJsonLoad deser slice ∧
    (∀ g, Gltf.from_slice_without_validation deser slice = .ok g → g.blob = none) ∧
    Gltf.from_reader_without_validation deser input = bareJsonLoad deser input ∧
    (∀ g, Gltf.from_reader_without_validation deser input = .ok g → g.blob = none) ∧
    (∀ s, s.take 4 = glbMagic →
      Gltf.from_slice_without_validation deser s = glbLoad deser s) := by
  have hbare : Gltf.from_slice_without_validation deser slice = bareJsonLoad deser slice := by
    unfold Gltf.from_slice_without_validation
    rw [if_neg hns]
    rfl
  have hbare2 : Gltf.from_reader_without_validation deser input = bareJsonLoad deser input := by
    unfold Gltf.from_reader_without_validation
    rw [if_neg (by omega), if_neg hni]
    rfl
  have hblob : ∀ (x : Except GError Gltf) (l : List Nat), x = bareJsonLoad deser l →
      ∀ g, x = .ok g → g.blob = none := by
    intro x l hx g hg
    rw [hx] at hg
    unfold bareJsonLoad at hg
    cases h : deser l with
    | error e => rw [h] at hg; cases hg
    | ok json => rw [h] at hg; cases hg; rfl
  refine ⟨hbare, hblob _ slice hbare, hbare2, hblob _ input hbare2, ?_⟩
  intro s hmag
  unfold Gltf.from_slice_without_validation glbLoad
  rw [if_pos hmag]

/-- C6 (witness): the amended theorem at a concrete bare-JSON slice and
a concrete four-byte bare-JSON reader input. -/
theorem bare_json_load_spec_w :
    Gltf.from_slice_without_validation deserEx [] = bareJsonLoad deserEx [] ∧
    Gltf.from_reader_without_validation deserEx [123, 34, 97, 34] =
      bareJsonLoad deserEx [123, 34, 97, 34] := by
  have h := bare_json_load_spec deserEx [] [123, 34, 97, 34]
    (by decide) (by decide) (by norm_num)
  exact ⟨h.1, h.2.2.1⟩

end Gltf
